import Mathlib

/-!
Verification of the Function-Point / COCOMO II calculation engine.

Shallow embedding of `src/lib/calculations.ts` (functions
`calculateFunctionPoints`, `calculateCocomoII`, `calculateMAE`,
`calculateRMSE`, `calculateR2Score`) together with the reference data it
uses from `src/lib/constants.ts` (`GSC_FACTORS`, `SIMPLE_WEIGHTS`,
`COCOMO_A`, `COCOMO_BASE_EXPONENT`).

Two carriers are used:

* exact rationals (`ℚ`) for the function-point calculator and the
  accuracy metrics, which only use `+`, `*`, `abs`, squaring, division
  and 2-decimal rounding — this is the idealisation of JavaScript
  doubles on which the spec's arithmetic statements live;
* a JavaScript-number model `JsVal` (a real number, `NaN`, `Infinity`
  or `-Infinity`) for the COCOMO II calculator, whose `Math.pow` can
  produce the special values, and for the NaN-propagation behaviour of
  the FP calculator's `|| 0` guard.

`Number.prototype.toFixed(2)` followed by `parseFloat` is modelled as
exact rounding to 2 decimal places with ties away from zero.
-/

namespace FPCalc

/-- Rounding as in `toFixed(2)`-then-`parseFloat` on an exact rational:
round to two decimal places, ties away from zero. -/
def round2Q (q : ℚ) : ℚ :=
  if 0 ≤ q then (⌊100 * q + 1/2⌋ : ℚ) / 100
  else -((⌊100 * (-q) + 1/2⌋ : ℚ) / 100)

/-- Same rounding on a real number (used where the source computes
`Math.sqrt` / `Math.pow`, whose exact values are irrational). -/
noncomputable def round2R (x : ℝ) : ℝ :=
  if 0 ≤ x then (⌊100 * x + 1/2⌋ : ℝ) / 100
  else -((⌊100 * (-x) + 1/2⌋ : ℝ) / 100)

/-! ## Data model (`src/lib/types.ts`) -/

/-- Raw component counts (`FPInputs` in `src/lib/types.ts`). -/
structure FPInputs where
  ei : ℚ
  eo : ℚ
  eq : ℚ
  ilf : ℚ
  eif : ℚ
deriving DecidableEq

/-- General-System-Characteristic ratings (`GSCInputs`):
a JavaScript object mapping GSC factor ids to ratings,
modelled as an association list (first binding wins on lookup, like
object property access; a well-formed object has distinct keys). -/
abbrev GSCInputs : Type := List (String × ℚ)

/-- Object property access `obj[key]` on an association list. -/
def assocLookup {β : Type} : List (String × β) → String → Option β
  | [], _ => none
  | p :: rest, id => if p.1 = id then some p.2 else assocLookup rest id

/-- The ids of the 14 General System Characteristics, in the order of
`GSC_FACTORS` in `src/lib/constants.ts` (names and descriptions carried
there are irrelevant to the calculation). -/
def GSC_FACTOR_IDS : List String :=
  ["dataCommunications", "distributedDataProcessing", "performance",
   "heavilyUsedConfiguration", "transactionRate", "onlineDataEntry",
   "endUserEfficiency", "onlineUpdate", "complexProcessing",
   "reusability", "installationEase", "operationalEase",
   "multipleSites", "facilitateChange"]

/-- The fixed average weights `SIMPLE_WEIGHTS` from `calculations.ts`. -/
structure Weights where
  ei : ℚ
  eo : ℚ
  eq : ℚ
  ilf : ℚ
  eif : ℚ

def SIMPLE_WEIGHTS : Weights := ⟨4, 5, 4, 10, 7⟩

/-- Lookup `gscInputs[factor.id] || 0` over exact rationals: a missing key
yields `0`, a present value `v` yields `v` (`0 || 0` is `0` either way;
the NaN case of `||` lives in the `JsVal` model below). -/
def lookupOrZero (gsc : GSCInputs) (id : String) : ℚ :=
  (assocLookup gsc id).getD 0

/-- The `tdi` accumulation loop:
`GSC_FACTORS.forEach(factor => { tdi += gscInputs[factor.id] || 0 })`. -/
def tdiOf (gsc : GSCInputs) : ℚ :=
  GSC_FACTOR_IDS.foldl (fun acc id => acc + lookupOrZero gsc id) 0

/-- Result record `FPCalculationResult` (the optional `actualAfp` is attached later by
the history store, never by the calculator, and is omitted). -/
structure FPCalculationResult where
  ufp : ℚ
  vaf : ℚ
  afp : ℚ
  inputs : FPInputs
  gsc : GSCInputs
deriving DecidableEq

/-- Function `calculateFunctionPoints` from `src/lib/calculations.ts`. -/
def calculateFunctionPoints (fpInputs : FPInputs) (gscInputs : GSCInputs) :
    FPCalculationResult :=
  let ufp :=
    fpInputs.ei * SIMPLE_WEIGHTS.ei +
    fpInputs.eo * SIMPLE_WEIGHTS.eo +
    fpInputs.eq * SIMPLE_WEIGHTS.eq +
    fpInputs.ilf * SIMPLE_WEIGHTS.ilf +
    fpInputs.eif * SIMPLE_WEIGHTS.eif
  let tdi := tdiOf gscInputs
  let vaf := 0.65 + 0.01 * tdi
  let afp := ufp * vaf
  { ufp := round2Q ufp
    vaf := round2Q vaf
    afp := round2Q afp
    inputs := fpInputs
    gsc := gscInputs }

/-! ## Accuracy metrics -/

/-- Paired estimate and outcome (`AccuracyDataPoint` in `calculations.ts`). -/
structure AccuracyDataPoint where
  estimated : ℚ
  actual : ℚ
deriving DecidableEq

/-- Accumulation `data.reduce((sum, point) => sum + Math.abs(point.actual - point.estimated), 0)`. -/
def sumAbsoluteErrors (data : List AccuracyDataPoint) : ℚ :=
  data.foldl (fun sum point => sum + |point.actual - point.estimated|) 0

/-- Accumulation `data.reduce((sum, point) => sum + Math.pow(point.actual - point.estimated, 2), 0)`. -/
def sumSquaredErrors (data : List AccuracyDataPoint) : ℚ :=
  data.foldl (fun sum point => sum + (point.actual - point.estimated) ^ 2) 0

/-- Function `calculateMAE` from `calculations.ts`. -/
def calculateMAE (data : List AccuracyDataPoint) : Option ℚ :=
  if data.length = 0 then none
  else some (round2Q (sumAbsoluteErrors data / data.length))

/-- Function `calculateRMSE` from `calculations.ts` (`Math.sqrt` forces the
real carrier). -/
noncomputable def calculateRMSE (data : List AccuracyDataPoint) : Option ℝ :=
  if data.length = 0 then none
  else some (round2R (Real.sqrt ((sumSquaredErrors data : ℚ) / data.length)))

/-- Accumulation `data.reduce((sum, point) => sum + point.actual, 0)`. -/
def sumActual (data : List AccuracyDataPoint) : ℚ :=
  data.foldl (fun sum point => sum + point.actual) 0

/-- Mean of the actual values, `meanActual = sumActual / n`. -/
def meanActual (data : List AccuracyDataPoint) : ℚ :=
  sumActual data / data.length

/-- Sum of squared residuals, `ssRes`. -/
def ssRes (data : List AccuracyDataPoint) : ℚ :=
  data.foldl (fun sum point => sum + (point.actual - point.estimated) ^ 2) 0

/-- Total sum of squares about `meanActual`, `ssTot`. -/
def ssTot (data : List AccuracyDataPoint) : ℚ :=
  data.foldl (fun sum point => sum + (point.actual - meanActual data) ^ 2) 0

/-- Function `calculateR2Score` from `calculations.ts` (current revision:
only the empty list is rejected up front; an earlier revision kept in the
repository also rejected one-element lists). -/
def calculateR2Score (data : List AccuracyDataPoint) : Option ℚ :=
  if data.length = 0 then none
  else if ssTot data = 0 then
    if ssRes data = 0 then some 1 else none
  else some (round2Q (1 - ssRes data / ssTot data))

/-! ## JavaScript-number model

The COCOMO II calculator uses `Math.pow`, which can produce `NaN` and
`Infinity`; the FP calculator's `|| 0` guard is sensitive to `NaN`.
`JsVal` models an IEEE double idealised as an exact real number plus
the three special values (signed zero and rounding of the mantissa are
not modelled). -/

inductive JsVal where
  | num : ℝ → JsVal
  | nan : JsVal
  | inf : JsVal
  | ninf : JsVal

namespace JsVal

/-- The value is an ordinary (finite) number. -/
def IsNum : JsVal → Prop
  | num _ => True
  | _ => False

/-- The value is `NaN`. -/
def IsNaN : JsVal → Prop
  | nan => True
  | _ => False

/-- The value is `Infinity` or `-Infinity`. -/
def IsInfinite : JsVal → Prop
  | inf => True
  | ninf => True
  | _ => False

end JsVal

open JsVal in
/-- JavaScript `+` on numbers. -/
noncomputable def jsAdd : JsVal → JsVal → JsVal
  | nan, _ => nan
  | _, nan => nan
  | inf, ninf => nan
  | ninf, inf => nan
  | inf, _ => inf
  | _, inf => inf
  | ninf, _ => ninf
  | _, ninf => ninf
  | num x, num y => num (x + y)

open JsVal in
/-- JavaScript `*` on numbers. -/
noncomputable def jsMul : JsVal → JsVal → JsVal
  | nan, _ => nan
  | _, nan => nan
  | inf, inf => inf
  | inf, ninf => ninf
  | ninf, inf => ninf
  | ninf, ninf => inf
  | inf, num y => if y = 0 then nan else if 0 < y then inf else ninf
  | num x, inf => if x = 0 then nan else if 0 < x then inf else ninf
  | ninf, num y => if y = 0 then nan else if 0 < y then ninf else inf
  | num x, ninf => if x = 0 then nan else if 0 < x then ninf else inf
  | num x, num y => num (x * y)

open Classical JsVal in
/-- Exponentiation `Math.pow` following ECMAScript `Number::exponentiate` (without
signed zeros): `x ** 0 = 1` for every `x` including `NaN`; a `NaN`
operand otherwise yields `NaN`; `0 ** e` is `0` for `e > 0` and
`Infinity` for `e < 0`; a positive base uses real exponentiation; a
negative base yields `NaN` unless the exponent is an integer. -/
noncomputable def jsPow (b e : JsVal) : JsVal :=
  match e with
  | nan => nan
  | inf =>
      match b with
      | nan => nan
      | inf => inf
      | ninf => inf
      | num x => if 1 < |x| then inf else if |x| = 1 then nan else num 0
  | ninf =>
      match b with
      | nan => nan
      | inf => num 0
      | ninf => num 0
      | num x => if 1 < |x| then num 0 else if |x| = 1 then nan else inf
  | num ev =>
      if ev = 0 then num 1
      else
        match b with
        | nan => nan
        | inf => if 0 < ev then inf else num 0
        | ninf =>
            if 0 < ev then
              (if ∃ n : ℤ, (n : ℝ) = ev ∧ Odd n then ninf else inf)
            else num 0
        | num x =>
            if x = 0 then (if 0 < ev then num 0 else inf)
            else if 0 < x then num (Real.rpow x ev)
            else if ∃ n : ℤ, (n : ℝ) = ev then num (x ^ ⌊ev⌋)
            else nan

/-- Rounding `parseFloat(x.toFixed(2))`: rounds a finite value to two decimals;
`NaN` and the infinities round-trip to themselves. -/
noncomputable def roundJs : JsVal → JsVal
  | JsVal.num x => JsVal.num (round2R x)
  | v => v

/-! ## COCOMO II calculator -/

/-- Constant `COCOMO_A` from `src/lib/constants.ts`. -/
def COCOMO_A : ℝ := 2.94

/-- Constant `COCOMO_BASE_EXPONENT` from `src/lib/constants.ts`. -/
def COCOMO_BASE_EXPONENT : ℝ := 0.91

/-- Inputs to the COCOMO II calculator (`CocomoInputs`):
size in KSLOC and the `scaleFactors` object,
modelled as an association list of (factor id, chosen exponent value)
entries.  The claims under study only concern ordinary (finite,
non-NaN) numeric inputs, so the fields are plain reals.  The optional
`costDrivers` field is never read by the calculator and is omitted. -/
structure CocomoInputs where
  ksloc : ℝ
  scaleFactors : List (String × ℝ)

/-- The `for (const factorId in scaleFactors)` accumulation:
every entry of the object contributes its value, whatever its key. -/
def sumOfSFExponents (scaleFactors : List (String × ℝ)) : ℝ :=
  scaleFactors.foldl (fun sum p => sum + p.2) 0

/-- The exponent `B = COCOMO_BASE_EXPONENT + 0.01 * sumOfSFExponents`. -/
def cocomoB (inputs : CocomoInputs) : ℝ :=
  COCOMO_BASE_EXPONENT + 0.01 * sumOfSFExponents inputs.scaleFactors

/-- The schedule exponent `F = 0.28 + 0.2 * (B - COCOMO_BASE_EXPONENT)`. -/
def cocomoF (inputs : CocomoInputs) : ℝ :=
  0.28 + 0.2 * (cocomoB inputs - COCOMO_BASE_EXPONENT)

/-- Result record `CocomoCalculationResult` (the optional `actualEffort`/`actualDevTime`
are attached later by the history store and omitted). -/
structure CocomoCalculationResult where
  effort : JsVal
  devTime : JsVal
  inputs : CocomoInputs

/-- Function `calculateCocomoII` from `src/lib/calculations.ts`:
`effort = COCOMO_A * Math.pow(ksloc, B) * EAF` with `EAF = 1.0`,
`devTime = 3.67 * Math.pow(effort, F)`, both then rounded to two
decimals. -/
noncomputable def calculateCocomoII (inputs : CocomoInputs) : CocomoCalculationResult :=
  let B := cocomoB inputs
  let EAF : ℝ := 1.0
  let effort := jsMul (jsMul (JsVal.num COCOMO_A) (jsPow (JsVal.num inputs.ksloc) (JsVal.num B))) (JsVal.num EAF)
  let C : ℝ := 3.67
  let F := cocomoF inputs
  let devTime := jsMul (JsVal.num C) (jsPow effort (JsVal.num F))
  { effort := roundJs effort
    devTime := roundJs devTime
    inputs := inputs }

/-! ## FP calculator over the JavaScript-number model

The same `calculateFunctionPoints` source, re-read over `JsVal` to
capture the behaviour of the `|| 0` guard on `NaN` ratings and the
propagation of `NaN` counts (the rational version above is its
restriction to ordinary numbers). -/

/-- Counts `FPInputs` with possibly-special values. -/
structure FPInputsJs where
  ei : JsVal
  eo : JsVal
  eq : JsVal
  ilf : JsVal
  eif : JsVal

/-- Ratings `GSCInputs` with possibly-special rating values. -/
abbrev GSCInputsJs : Type := List (String × JsVal)

/-- Guard `v || 0`: JavaScript `||` returns the right operand when the
left is falsy; the falsy numbers are `0` (either zero) and `NaN`. -/
noncomputable def jsOrZero : JsVal → JsVal
  | JsVal.num x => if x = 0 then JsVal.num 0 else JsVal.num x
  | JsVal.nan => JsVal.num 0
  | v => v

/-- Lookup `gscInputs[factor.id] || 0` over `JsVal` (`undefined || 0` is `0`). -/
noncomputable def gscRatingJs (gsc : GSCInputsJs) (id : String) : JsVal :=
  match assocLookup gsc id with
  | none => JsVal.num 0
  | some v => jsOrZero v

/-- The `tdi` accumulation loop over `JsVal`. -/
noncomputable def tdiOfJs (gsc : GSCInputsJs) : JsVal :=
  GSC_FACTOR_IDS.foldl (fun acc id => jsAdd acc (gscRatingJs gsc id)) (JsVal.num 0)

/-- Result record `FPCalculationResult` over `JsVal`. -/
structure FPCalculationResultJs where
  ufp : JsVal
  vaf : JsVal
  afp : JsVal
  inputs : FPInputsJs
  gsc : GSCInputsJs

/-- Function `calculateFunctionPoints` re-read over the JavaScript-number model. -/
noncomputable def calculateFunctionPointsJs (fpInputs : FPInputsJs)
    (gscInputs : GSCInputsJs) : FPCalculationResultJs :=
  let ufp :=
    jsAdd (jsAdd (jsAdd (jsAdd
      (jsMul fpInputs.ei (JsVal.num 4))
      (jsMul fpInputs.eo (JsVal.num 5)))
      (jsMul fpInputs.eq (JsVal.num 4)))
      (jsMul fpInputs.ilf (JsVal.num 10)))
      (jsMul fpInputs.eif (JsVal.num 7))
  let tdi := tdiOfJs gscInputs
  let vaf := jsAdd (JsVal.num 0.65) (jsMul (JsVal.num 0.01) tdi)
  let afp := jsMul ufp vaf
  { ufp := roundJs ufp
    vaf := roundJs vaf
    afp := roundJs afp
    inputs := fpInputs
    gsc := gscInputs }

/-! ## Concrete inputs and input-classifying predicates used in the
statements below -/

/-- An all-zero rating assignment over the 14 GSC ids. -/
def allZeroGsc : GSCInputs := GSC_FACTOR_IDS.map (fun id => (id, (0 : ℚ)))

/-- An all-five rating assignment over the 14 GSC ids. -/
def allFiveGsc : GSCInputs := GSC_FACTOR_IDS.map (fun id => (id, (5 : ℚ)))

/-- Every count is a non-negative integer (the spec's precondition on
`FPInputs`). -/
def FPInputs.NatCounts (fp : FPInputs) : Prop :=
  (∃ n : ℕ, fp.ei = n) ∧ (∃ n : ℕ, fp.eo = n) ∧ (∃ n : ℕ, fp.eq = n)
    ∧ (∃ n : ℕ, fp.ilf = n) ∧ (∃ n : ℕ, fp.eif = n)

/-- Every effective rating over the 14 fixed ids is an integer in
`[0, 5]`. -/
def IntRatings (gsc : GSCInputs) : Prop :=
  ∀ id ∈ GSC_FACTOR_IDS, ∃ k : Fin 6, lookupOrZero gsc id = ((k : ℕ) : ℚ)

/-- Every effective rating over the 14 fixed ids lies in `[0, 5]` (the
claim's weaker, not-necessarily-integer hypothesis). -/
def RatingsInRange (gsc : GSCInputs) : Prop :=
  ∀ id ∈ GSC_FACTOR_IDS, 0 ≤ lookupOrZero gsc id ∧ lookupOrZero gsc id ≤ 5

/-- Every field of the `JsVal`-valued counts is an ordinary number. -/
def FPInputsJs.AllNum (fp : FPInputsJs) : Prop :=
  fp.ei.IsNum ∧ fp.eo.IsNum ∧ fp.eq.IsNum ∧ fp.ilf.IsNum ∧ fp.eif.IsNum

/-- Every rating value in the `JsVal`-valued GSC object is an ordinary
number or `NaN` (no infinities). -/
def GSCNumOrNaN (gsc : GSCInputsJs) : Prop :=
  ∀ p ∈ gsc, p.2.IsNum ∨ p.2.IsNaN

end FPCalc

namespace FPCalc

/-! ## Shared helper lemmas -/

theorem foldl_add_eq_sum {M : Type} [AddCommMonoid M] {α : Type} (f : α → M) :
    ∀ (l : List α) (init : M),
      l.foldl (fun s p => s + f p) init = init + (l.map f).sum := by
  intro l
  induction l with
  | nil => simp
  | cons a t ih =>
      intro init
      simp only [List.foldl_cons, List.map_cons, List.sum_cons, ih, add_assoc]

theorem round2Q_abs_sub_le (q : ℚ) : |round2Q q - q| ≤ 1 / 200 := by
  have key : ∀ x : ℚ, 0 ≤ x → |(⌊100 * x + 1/2⌋ : ℚ) / 100 - x| ≤ 1 / 200 := by
    intro x _
    rw [abs_le]
    constructor
    · have h := Int.lt_floor_add_one (100 * x + 1/2)
      have h2 : 100 * x - 1/2 < (⌊100 * x + 1/2⌋ : ℚ) := by linarith
      nlinarith
    · have h := Int.floor_le (100 * x + 1/2)
      nlinarith
  rcases le_or_lt 0 q with h | h
  · simpa [round2Q, h] using key q h
  · have h0 : ¬ (0 : ℚ) ≤ q := not_le.mpr h
    have h1 : (0 : ℚ) ≤ -q := by linarith
    have := key (-q) h1
    rw [round2Q, if_neg h0]
    calc |-((⌊100 * -q + 1/2⌋ : ℚ) / 100) - q|
        = |(⌊100 * -q + 1/2⌋ : ℚ) / 100 - -q| := by rw [← abs_neg]; ring_nf
      _ ≤ 1 / 200 := this

theorem round2Q_eq_self (q : ℚ) (n : ℤ) (h : 100 * q = n) : round2Q q = q := by
  have floor_half : ∀ m : ℤ, ⌊(m : ℚ) + 1/2⌋ = m := by
    intro m
    rw [Int.floor_eq_iff]
    constructor <;> norm_num
  rcases le_or_lt 0 q with h0 | h0
  · rw [round2Q, if_pos h0, h, floor_half n]
    field_simp at h ⊢
    linarith
  · have h0' : ¬ (0 : ℚ) ≤ q := not_le.mpr h0
    have hn : 100 * -q = ((-n : ℤ) : ℚ) := by push_cast; linarith
    rw [round2Q, if_neg h0', hn, floor_half (-n)]
    push_cast
    field_simp at h ⊢
    linarith

theorem assocLookup_irrelevant {β : Type} (l₁ l₂ : List (String × β))
    (k id : String) (v : β) (h : k ≠ id) :
    assocLookup (l₁ ++ (k, v) :: l₂) id = assocLookup (l₁ ++ l₂) id := by
  induction l₁ with
  | nil => simp [assocLookup, h]
  | cons p t ih => by_cases hp : p.1 = id <;> simp [assocLookup, hp, ih]

theorem assocLookup_mem {β : Type} :
    ∀ (l : List (String × β)) (id : String) (v : β),
      assocLookup l id = some v → ∃ k, (k, v) ∈ l := by
  intro l
  induction l with
  | nil => intro id v h; simp [assocLookup] at h
  | cons p t ih =>
      intro id v h
      rw [assocLookup] at h
      by_cases hp : p.1 = id
      · rw [if_pos hp] at h
        exact ⟨p.1, by simp [← Option.some_inj.mp h]⟩
      · rw [if_neg hp] at h
        obtain ⟨k, hk⟩ := ih id v h
        exact ⟨k, by simp [hk]⟩

theorem tdiOf_eq_sum (gsc : GSCInputs) :
    tdiOf gsc = (GSC_FACTOR_IDS.map (lookupOrZero gsc)).sum := by
  rw [tdiOf, foldl_add_eq_sum (lookupOrZero gsc), zero_add]

theorem sumOfSFExponents_eq_sum (sf : List (String × ℝ)) :
    sumOfSFExponents sf = (sf.map Prod.snd).sum := by
  rw [sumOfSFExponents, foldl_add_eq_sum Prod.snd, zero_add]

theorem jsAdd_num_num (x y : ℝ) : jsAdd (JsVal.num x) (JsVal.num y) = JsVal.num (x + y) := rfl

theorem jsAdd_nan_left (v : JsVal) : jsAdd JsVal.nan v = JsVal.nan := by
  cases v <;> rfl

theorem jsMul_num_num (x y : ℝ) : jsMul (JsVal.num x) (JsVal.num y) = JsVal.num (x * y) := rfl

theorem jsMul_nan_left (v : JsVal) : jsMul JsVal.nan v = JsVal.nan := by
  cases v <;> rfl

theorem jsMul_nan_right (v : JsVal) : jsMul v JsVal.nan = JsVal.nan := by
  cases v <;> rfl

theorem jsPow_num_pos (x e : ℝ) (hx : 0 < x) :
    jsPow (JsVal.num x) (JsVal.num e) = JsVal.num (Real.rpow x e) := by
  rw [jsPow]
  by_cases he : e = 0
  · subst he; simp [Real.rpow_zero]
  · rw [if_neg he, if_neg (ne_of_gt hx), if_pos hx]

theorem jsPow_zero_base (e : ℝ) (he : 0 < e) :
    jsPow (JsVal.num 0) (JsVal.num e) = JsVal.num 0 := by
  rw [jsPow, if_neg (ne_of_gt he)]
  simp [he]

theorem jsPow_nan_base (e : ℝ) (he : e ≠ 0) :
    jsPow JsVal.nan (JsVal.num e) = JsVal.nan := by
  rw [jsPow, if_neg he]

theorem jsPow_neg_base_nonint (x e : ℝ) (hx : x < 0)
    (he : ¬∃ n : ℤ, (n : ℝ) = e) :
    jsPow (JsVal.num x) (JsVal.num e) = JsVal.nan := by
  have he0 : e ≠ 0 := by
    intro h
    exact he ⟨0, by rw [h]; norm_num⟩
  rw [jsPow, if_neg he0, if_neg (ne_of_lt hx), if_neg (not_lt.mpr (le_of_lt hx)),
    if_neg he]

theorem roundJs_num (x : ℝ) : roundJs (JsVal.num x) = JsVal.num (round2R x) := rfl

theorem JsVal.isNum_iff (v : JsVal) : v.IsNum ↔ ∃ x, v = JsVal.num x := by
  cases v <;> simp [JsVal.IsNum]

/-- Effort and schedule of `calculateCocomoII` for positive KSLOC: the
power operations stay in ordinary real arithmetic. -/
theorem calculateCocomoII_pos (inputs : CocomoInputs) (h : 0 < inputs.ksloc) :
    (calculateCocomoII inputs).effort
        = JsVal.num (round2R (COCOMO_A * Real.rpow inputs.ksloc (cocomoB inputs) * 1.0))
    ∧ (calculateCocomoII inputs).devTime
        = JsVal.num (round2R (3.67 * Real.rpow
            (COCOMO_A * Real.rpow inputs.ksloc (cocomoB inputs) * 1.0) (cocomoF inputs))) := by
  have hpow : jsPow (JsVal.num inputs.ksloc) (JsVal.num (cocomoB inputs))
      = JsVal.num (Real.rpow inputs.ksloc (cocomoB inputs)) := jsPow_num_pos _ _ h
  have heff_pos : 0 < COCOMO_A * Real.rpow inputs.ksloc (cocomoB inputs) * 1.0 := by
    have h2 : 0 < Real.rpow inputs.ksloc (cocomoB inputs) :=
      Real.rpow_pos_of_pos h (cocomoB inputs)
    rw [COCOMO_A]
    nlinarith
  constructor
  · rw [calculateCocomoII]
    simp only [hpow, jsMul_num_num, roundJs_num]
  · rw [calculateCocomoII]
    simp only [hpow, jsMul_num_num, jsPow_num_pos _ _ heff_pos, roundJs_num]

theorem JsVal.isNaN_iff (v : JsVal) : v.IsNaN ↔ v = JsVal.nan := by
  cases v <;> simp [JsVal.IsNaN]

theorem roundJs_nan : roundJs JsVal.nan = JsVal.nan := rfl

theorem jsOrZero_isNum (v : JsVal) (h : v.IsNum ∨ v.IsNaN) : (jsOrZero v).IsNum := by
  cases v with
  | num x =>
      rw [jsOrZero]
      by_cases hx : x = 0
      · rw [if_pos hx]; trivial
      · rw [if_neg hx]; trivial
  | nan => trivial
  | inf => simp [JsVal.IsNum, JsVal.IsNaN] at h
  | ninf => simp [JsVal.IsNum, JsVal.IsNaN] at h

theorem gscRatingJs_isNum (gsc : GSCInputsJs) (id : String) (h : GSCNumOrNaN gsc) :
    (gscRatingJs gsc id).IsNum := by
  rw [gscRatingJs]
  split
  · trivial
  · rename_i v hv
    obtain ⟨k, hk⟩ := assocLookup_mem gsc id v hv
    exact jsOrZero_isNum v (h (k, v) hk)

theorem foldl_jsAdd_isNum (f : String → JsVal) :
    ∀ (ids : List String) (acc : JsVal), (∀ id ∈ ids, (f id).IsNum) → acc.IsNum →
      (ids.foldl (fun a i => jsAdd a (f i)) acc).IsNum := by
  intro ids
  induction ids with
  | nil => intro acc _ hacc; simpa using hacc
  | cons a t ih =>
      intro acc h hacc
      rw [List.foldl_cons]
      apply ih
      · intro id hid
        exact h id (by simp [hid])
      · obtain ⟨x, hx⟩ := (JsVal.isNum_iff acc).mp hacc
        obtain ⟨y, hy⟩ := (JsVal.isNum_iff (f a)).mp (h a (by simp))
        rw [hx, hy, jsAdd_num_num]
        trivial

theorem tdiOfJs_isNum (gsc : GSCInputsJs) (h : GSCNumOrNaN gsc) :
    (tdiOfJs gsc).IsNum := by
  rw [tdiOfJs]
  exact foldl_jsAdd_isNum _ _ _ (fun id _ => gscRatingJs_isNum gsc id h) trivial

theorem ratings_sum_natural (f : String → ℚ) :
    ∀ ids : List String, (∀ id ∈ ids, ∃ k : Fin 6, f id = ((k : ℕ) : ℚ)) →
      ∃ m : ℕ, m ≤ 5 * ids.length ∧ (ids.map f).sum = m := by
  intro ids
  induction ids with
  | nil => intro _; exact ⟨0, by simp, by simp⟩
  | cons a t ih =>
      intro h
      obtain ⟨k, hk⟩ := h a (by simp)
      obtain ⟨m, hm1, hm2⟩ := ih (fun id hid => h id (by simp [hid]))
      refine ⟨k + m, ?_, ?_⟩
      · have hk5 : (k : ℕ) ≤ 5 := Nat.lt_succ_iff.mp k.isLt
        simp only [List.length_cons]
        omega
      · rw [List.map_cons, List.sum_cons, hk, hm2]
        push_cast
        ring

end FPCalc

namespace FPCalc

/-! ## The claims -/

set_option maxHeartbeats 1000000 in
/-- Claim C4: `calculateFunctionPoints` returns
`ufp = 4*ei + 5*eo + 4*eq + 10*ilf + 7*eif`, `vaf = 0.65 + 0.01*TDI` and
`afp = ufp * vaf`, each rounded to 2 decimal places; the inputs
`{ei:10,eo:10,eq:10,ilf:10,eif:10}` with all 14 GSC ratings 0 yield
`ufp = 300`, `vaf = 0.65`, `afp = 195.00`, and all-zero counts with all
14 GSC ratings 5 yield `ufp = 0`, `vaf = 1.35`, `afp = 0`. -/
theorem C4_fp_formulas_and_examples :
    (∀ (fp : FPInputs) (gsc : GSCInputs),
        (calculateFunctionPoints fp gsc).ufp
            = round2Q (fp.ei * 4 + fp.eo * 5 + fp.eq * 4 + fp.ilf * 10 + fp.eif * 7)
        ∧ (calculateFunctionPoints fp gsc).vaf = round2Q (0.65 + 0.01 * tdiOf gsc)
        ∧ (calculateFunctionPoints fp gsc).afp
            = round2Q ((fp.ei * 4 + fp.eo * 5 + fp.eq * 4 + fp.ilf * 10 + fp.eif * 7)
                * (0.65 + 0.01 * tdiOf gsc)))
    ∧ ((calculateFunctionPoints ⟨10, 10, 10, 10, 10⟩ allZeroGsc).ufp = 300
        ∧ (calculateFunctionPoints ⟨10, 10, 10, 10, 10⟩ allZeroGsc).vaf = 0.65
        ∧ (calculateFunctionPoints ⟨10, 10, 10, 10, 10⟩ allZeroGsc).afp = 195)
    ∧ ((calculateFunctionPoints ⟨0, 0, 0, 0, 0⟩ allFiveGsc).ufp = 0
        ∧ (calculateFunctionPoints ⟨0, 0, 0, 0, 0⟩ allFiveGsc).vaf = 1.35
        ∧ (calculateFunctionPoints ⟨0, 0, 0, 0, 0⟩ allFiveGsc).afp = 0) := by
  refine ⟨fun fp gsc => ⟨rfl, rfl, rfl⟩, ⟨?_, ?_, ?_⟩, ⟨?_, ?_, ?_⟩⟩ <;>
    norm_num [calculateFunctionPoints, SIMPLE_WEIGHTS, allZeroGsc, allFiveGsc,
      tdiOf, GSC_FACTOR_IDS, lookupOrZero, assocLookup, round2Q]

/-- Claim C8: the result of `calculateFunctionPoints` carries `inputs`
and `gsc` exactly equal to the arguments it was called with, and the
result of `calculateCocomoII` carries `inputs` exactly equal to its
argument. -/
theorem C8_inputs_echoed :
    (∀ (fp : FPInputs) (gsc : GSCInputs),
        (calculateFunctionPoints fp gsc).inputs = fp
        ∧ (calculateFunctionPoints fp gsc).gsc = gsc)
    ∧ (∀ inputs : CocomoInputs, (calculateCocomoII inputs).inputs = inputs) :=
  ⟨fun _ _ => ⟨rfl, rfl⟩, fun _ => rfl⟩

/-- Claim C9: `calculateFunctionPoints` and `calculateCocomoII` are
deterministic functions of their arguments: two calls on equal inputs
return equal results in every field (in this embedding both are pure
total functions, so determinism is congruence). -/
theorem C9_deterministic :
    (∀ (fp₁ fp₂ : FPInputs) (gsc₁ gsc₂ : GSCInputs), fp₁ = fp₂ → gsc₁ = gsc₂ →
        calculateFunctionPoints fp₁ gsc₁ = calculateFunctionPoints fp₂ gsc₂)
    ∧ (∀ i₁ i₂ : CocomoInputs, i₁ = i₂ →
        calculateCocomoII i₁ = calculateCocomoII i₂) := by
  constructor
  · intro fp₁ fp₂ gsc₁ gsc₂ h₁ h₂
    rw [h₁, h₂]
  · intro i₁ i₂ h
    rw [h]

/-- Witness for C9 at concrete inputs. -/
theorem C9_deterministic_witness :
    calculateFunctionPoints ⟨1, 2, 3, 4, 5⟩ allZeroGsc
        = calculateFunctionPoints ⟨1, 2, 3, 4, 5⟩ allZeroGsc
    ∧ calculateCocomoII ⟨10, []⟩ = calculateCocomoII ⟨10, []⟩ :=
  ⟨C9_deterministic.1 ⟨1, 2, 3, 4, 5⟩ ⟨1, 2, 3, 4, 5⟩ allZeroGsc allZeroGsc rfl rfl,
   C9_deterministic.2 ⟨10, []⟩ ⟨10, []⟩ rfl⟩

/-- Claim C1: on a nonempty list with `ssTot = 0` (all actual values
identical, which includes every one-element list) `calculateR2Score`
returns `1.00` when `ssRes = 0` and `null` otherwise; in particular it
returns `1.00` on `[{estimated:5, actual:5}]` and `null` on
`[{estimated:3, actual:5}]`; and whenever `ssTot ≠ 0` it returns
`1 - ssRes/ssTot` rounded to 2 decimal places. -/
theorem C1_r2_ssTot_zero_policy :
    (∀ data : List AccuracyDataPoint, data ≠ [] → ssTot data = 0 →
        calculateR2Score data = (if ssRes data = 0 then some 1 else none))
    ∧ (∀ data : List AccuracyDataPoint, ssTot data ≠ 0 →
        calculateR2Score data = some (round2Q (1 - ssRes data / ssTot data)))
    ∧ calculateR2Score [⟨5, 5⟩] = some 1
    ∧ calculateR2Score [⟨3, 5⟩] = none := by
  refine ⟨?_, ?_, ?_, ?_⟩
  · intro data hne h0
    rw [calculateR2Score,
      if_neg (fun h => hne (List.length_eq_zero.mp h)), if_pos h0]
  · intro data h0
    have hne : data ≠ [] := by
      intro h
      subst h
      exact h0 rfl
    rw [calculateR2Score,
      if_neg (fun h => hne (List.length_eq_zero.mp h)), if_neg h0]
  · norm_num [calculateR2Score, ssTot, ssRes, meanActual, sumActual]
  · norm_num [calculateR2Score, ssTot, ssRes, meanActual, sumActual]

/-- Witness for C1 at concrete inputs on both hypothesised branches. -/
theorem C1_r2_ssTot_zero_policy_witness :
    calculateR2Score [⟨5, 5⟩] = (if ssRes [⟨5, 5⟩] = 0 then some 1 else none)
    ∧ calculateR2Score [⟨1, 0⟩, ⟨2, 2⟩]
        = some (round2Q (1 - ssRes [⟨1, 0⟩, ⟨2, 2⟩] / ssTot [⟨1, 0⟩, ⟨2, 2⟩])) :=
  ⟨C1_r2_ssTot_zero_policy.1 _ (by simp)
      (by norm_num [ssTot, meanActual, sumActual]),
   C1_r2_ssTot_zero_policy.2.1 _
      (by norm_num [ssTot, meanActual, sumActual])⟩

/-- Claim C7: `calculateMAE` and `calculateRMSE` return `null` exactly
when the input list is empty (as does `calculateR2Score` on the empty
list); on a nonempty list they return the mean absolute error and the
root of the mean squared error, each rounded to 2 decimal places,
independently of the order of the pairs; both are total functions. -/
theorem C7_mae_rmse_contract :
    (∀ data : List AccuracyDataPoint, (calculateMAE data = none ↔ data = []))
    ∧ (∀ data : List AccuracyDataPoint, (calculateRMSE data = none ↔ data = []))
    ∧ calculateR2Score [] = none
    ∧ (∀ data : List AccuracyDataPoint, data ≠ [] →
        calculateMAE data
            = some (round2Q ((data.map (fun p => |p.actual - p.estimated|)).sum
                / data.length))
        ∧ calculateRMSE data
            = some (round2R (Real.sqrt
                (((data.map (fun p => (p.actual - p.estimated) ^ 2)).sum : ℚ)
                  / data.length))))
    ∧ (∀ d₁ d₂ : List AccuracyDataPoint, d₁.Perm d₂ →
        calculateMAE d₁ = calculateMAE d₂ ∧ calculateRMSE d₁ = calculateRMSE d₂) := by
  have habs : ∀ data : List AccuracyDataPoint,
      sumAbsoluteErrors data = (data.map fun p => |p.actual - p.estimated|).sum := by
    intro data
    rw [sumAbsoluteErrors, foldl_add_eq_sum, zero_add]
  have hsq : ∀ data : List AccuracyDataPoint,
      sumSquaredErrors data = (data.map fun p => (p.actual - p.estimated) ^ 2).sum := by
    intro data
    rw [sumSquaredErrors, foldl_add_eq_sum, zero_add]
  refine ⟨?_, ?_, ?_, ?_, ?_⟩
  · intro data
    cases data with
    | nil => simp [calculateMAE]
    | cons p t => simp [calculateMAE]
  · intro data
    cases data with
    | nil => simp [calculateRMSE]
    | cons p t => simp [calculateRMSE]
  · rfl
  · intro data hne
    constructor
    · rw [calculateMAE, if_neg (fun h => hne (List.length_eq_zero.mp h)), habs]
    · rw [calculateRMSE, if_neg (fun h => hne (List.length_eq_zero.mp h)), hsq]
  · intro d₁ d₂ h
    have hlen := h.length_eq
    have habs' : sumAbsoluteErrors d₁ = sumAbsoluteErrors d₂ := by
      rw [habs, habs]
      exact List.Perm.sum_eq (h.map _)
    have hsq' : sumSquaredErrors d₁ = sumSquaredErrors d₂ := by
      rw [hsq, hsq]
      exact List.Perm.sum_eq (h.map _)
    constructor
    · rw [calculateMAE, calculateMAE, hlen, habs']
    · rw [calculateRMSE, calculateRMSE, hlen, hsq']

/-- Witness for C7 at concrete inputs on the hypothesised branches. -/
theorem C7_mae_rmse_contract_witness :
    (calculateMAE [⟨1, 3⟩]
        = some (round2Q ((([⟨1, 3⟩] : List AccuracyDataPoint).map
            (fun p => |p.actual - p.estimated|)).sum
              / ([⟨1, 3⟩] : List AccuracyDataPoint).length))
      ∧ calculateRMSE [⟨1, 3⟩]
          = some (round2R (Real.sqrt
              (((([⟨1, 3⟩] : List AccuracyDataPoint).map
                  (fun p => (p.actual - p.estimated) ^ 2)).sum : ℚ)
                / ([⟨1, 3⟩] : List AccuracyDataPoint).length))))
    ∧ (calculateMAE [⟨1, 3⟩, ⟨2, 2⟩] = calculateMAE [⟨2, 2⟩, ⟨1, 3⟩]
      ∧ calculateRMSE [⟨1, 3⟩, ⟨2, 2⟩] = calculateRMSE [⟨2, 2⟩, ⟨1, 3⟩]) :=
  ⟨C7_mae_rmse_contract.2.2.2.1 _ (by simp),
   C7_mae_rmse_contract.2.2.2.2 _ _ (List.Perm.swap _ _ _)⟩

/-- Claim C6: the TDI sum ranges over exactly the 14 fixed GSC ids: an
id absent from `gscInputs` contributes `0`, and an entry whose key is
outside the 14 known ids has no effect on the returned `ufp`, `vaf` or
`afp`. -/
theorem C6_gsc_unknown_ids_ignored :
    (∀ (fp : FPInputs) (l₁ l₂ : GSCInputs) (k : String) (v : ℚ),
        k ∉ GSC_FACTOR_IDS →
          (calculateFunctionPoints fp (l₁ ++ (k, v) :: l₂)).ufp
              = (calculateFunctionPoints fp (l₁ ++ l₂)).ufp
          ∧ (calculateFunctionPoints fp (l₁ ++ (k, v) :: l₂)).vaf
              = (calculateFunctionPoints fp (l₁ ++ l₂)).vaf
          ∧ (calculateFunctionPoints fp (l₁ ++ (k, v) :: l₂)).afp
              = (calculateFunctionPoints fp (l₁ ++ l₂)).afp)
    ∧ (∀ (gsc : GSCInputs) (id : String), assocLookup gsc id = none →
        lookupOrZero gsc id = 0) := by
  refine ⟨fun fp l₁ l₂ k v hk => ?_, fun gsc id h => by rw [lookupOrZero, h]; rfl⟩
  have htdi : tdiOf (l₁ ++ (k, v) :: l₂) = tdiOf (l₁ ++ l₂) := by
    rw [tdiOf_eq_sum, tdiOf_eq_sum]
    congr 1
    apply List.map_congr_left
    intro id hid
    have hne : k ≠ id := by
      intro he
      rw [he] at hk
      exact hk hid
    rw [lookupOrZero, lookupOrZero, assocLookup_irrelevant _ _ _ _ _ hne]
  exact ⟨rfl, by simp only [calculateFunctionPoints, htdi],
    by simp only [calculateFunctionPoints, htdi]⟩

/-- Witness for C6 at a concrete unknown key and a concrete absent id. -/
theorem C6_gsc_unknown_ids_ignored_witness :
    ((calculateFunctionPoints ⟨1, 1, 1, 1, 1⟩ ([] ++ ("unknownFactor", 9) :: [("performance", 3)])).ufp
        = (calculateFunctionPoints ⟨1, 1, 1, 1, 1⟩ ([] ++ [("performance", 3)])).ufp
      ∧ (calculateFunctionPoints ⟨1, 1, 1, 1, 1⟩ ([] ++ ("unknownFactor", 9) :: [("performance", 3)])).vaf
        = (calculateFunctionPoints ⟨1, 1, 1, 1, 1⟩ ([] ++ [("performance", 3)])).vaf
      ∧ (calculateFunctionPoints ⟨1, 1, 1, 1, 1⟩ ([] ++ ("unknownFactor", 9) :: [("performance", 3)])).afp
        = (calculateFunctionPoints ⟨1, 1, 1, 1, 1⟩ ([] ++ [("performance", 3)])).afp)
    ∧ lookupOrZero [("performance", 3)] "reusability" = 0 :=
  ⟨C6_gsc_unknown_ids_ignored.1 ⟨1, 1, 1, 1, 1⟩ [] [("performance", 3)]
      "unknownFactor" 9 (by decide),
   C6_gsc_unknown_ids_ignored.2 [("performance", 3)] "reusability" (by decide)⟩

/-- Claim C3: for positive KSLOC, `calculateCocomoII` computes
`B = 0.91 + 0.01 * S` where `S` sums every value present in
`scaleFactors` (order-independent, every entry contributes regardless
of its key), `effort = 2.94 * ksloc ^ B` with `EAF` fixed at `1.0`, and
`devTime = 3.67 * effort ^ (0.28 + 0.2 * (B - 0.91))`, each rounded to
2 decimal places. -/
theorem C3_cocomo_formula :
    (∀ inputs : CocomoInputs, 0 < inputs.ksloc →
        (calculateCocomoII inputs).effort
            = JsVal.num (round2R (2.94 * Real.rpow inputs.ksloc
                (0.91 + 0.01 * (inputs.scaleFactors.map Prod.snd).sum) * 1.0))
        ∧ (calculateCocomoII inputs).devTime
            = JsVal.num (round2R (3.67 * Real.rpow
                (2.94 * Real.rpow inputs.ksloc
                  (0.91 + 0.01 * (inputs.scaleFactors.map Prod.snd).sum) * 1.0)
                (0.28 + 0.2 * (0.91 + 0.01 * (inputs.scaleFactors.map Prod.snd).sum
                    - 0.91)))))
    ∧ (∀ (k : ℝ) (sf₁ sf₂ : List (String × ℝ)), sf₁.Perm sf₂ →
        (calculateCocomoII ⟨k, sf₁⟩).effort = (calculateCocomoII ⟨k, sf₂⟩).effort
        ∧ (calculateCocomoII ⟨k, sf₁⟩).devTime = (calculateCocomoII ⟨k, sf₂⟩).devTime)
    ∧ (∀ (k : ℝ) (sf : List (String × ℝ)) (id : String) (v : ℝ),
        cocomoB ⟨k, (id, v) :: sf⟩ = cocomoB ⟨k, sf⟩ + 0.01 * v) := by
  refine ⟨fun inputs h => ?_, fun k sf₁ sf₂ h => ?_, fun k sf id v => ?_⟩
  · obtain ⟨h1, h2⟩ := calculateCocomoII_pos inputs h
    constructor
    · rw [h1]
      simp only [COCOMO_A, cocomoB, COCOMO_BASE_EXPONENT, sumOfSFExponents_eq_sum]
    · rw [h2]
      simp only [COCOMO_A, cocomoB, cocomoF, COCOMO_BASE_EXPONENT,
        sumOfSFExponents_eq_sum]
  · have hB : cocomoB ⟨k, sf₁⟩ = cocomoB ⟨k, sf₂⟩ := by
      simp only [cocomoB, sumOfSFExponents_eq_sum]
      rw [List.Perm.sum_eq (h.map _)]
    have hF : cocomoF ⟨k, sf₁⟩ = cocomoF ⟨k, sf₂⟩ := by
      simp only [cocomoF, hB]
    constructor <;> simp only [calculateCocomoII, hB, hF]
  · simp only [cocomoB, sumOfSFExponents_eq_sum, List.map_cons, List.sum_cons]
    ring

/-- Witness for C3 at concrete inputs. -/
theorem C3_cocomo_formula_witness :
    ((calculateCocomoII ⟨1, []⟩).effort
        = JsVal.num (round2R (2.94 * Real.rpow 1
            (0.91 + 0.01 * (([] : List (String × ℝ)).map Prod.snd).sum) * 1.0))
      ∧ (calculateCocomoII ⟨1, []⟩).devTime
          = JsVal.num (round2R (3.67 * Real.rpow
              (2.94 * Real.rpow 1
                (0.91 + 0.01 * (([] : List (String × ℝ)).map Prod.snd).sum) * 1.0)
              (0.28 + 0.2 * (0.91 + 0.01 * (([] : List (String × ℝ)).map Prod.snd).sum
                  - 0.91)))))
    ∧ ((calculateCocomoII ⟨2, [("PREC", 1), ("FLEX", 2)]⟩).effort
        = (calculateCocomoII ⟨2, [("FLEX", 2), ("PREC", 1)]⟩).effort
      ∧ (calculateCocomoII ⟨2, [("PREC", 1), ("FLEX", 2)]⟩).devTime
        = (calculateCocomoII ⟨2, [("FLEX", 2), ("PREC", 1)]⟩).devTime) :=
  ⟨C3_cocomo_formula.1 ⟨1, []⟩ (by norm_num),
   C3_cocomo_formula.2.1 2 _ _ (List.Perm.swap _ _ _)⟩

/-- Counterexample to claim C2: the input with `ksloc = 0` and an empty
`scaleFactors` map satisfies both of the claim's premises
(`ksloc ≤ 0`, empty map), yet `calculateCocomoII` returns `effort = 0`
and `devTime = 0` — ordinary finite numbers, neither `NaN` nor
`Infinity` (`0 ^ 0.91 = 0` and `0 ^ 0.28 = 0` in JavaScript). -/
theorem C2_counterexample :
    ((⟨0, []⟩ : CocomoInputs).ksloc ≤ 0 ∧ (⟨0, []⟩ : CocomoInputs).scaleFactors = [])
    ∧ (calculateCocomoII ⟨0, []⟩).effort = JsVal.num 0
    ∧ (calculateCocomoII ⟨0, []⟩).devTime = JsVal.num 0
    ∧ ¬((calculateCocomoII ⟨0, []⟩).effort.IsNaN
        ∨ (calculateCocomoII ⟨0, []⟩).effort.IsInfinite
        ∨ (calculateCocomoII ⟨0, []⟩).devTime.IsNaN
        ∨ (calculateCocomoII ⟨0, []⟩).devTime.IsInfinite) := by
  have hB : cocomoB ⟨0, []⟩ = 0.91 := by
    simp [cocomoB, sumOfSFExponents, COCOMO_BASE_EXPONENT]
  have hF : cocomoF ⟨0, []⟩ = 0.28 := by
    simp [cocomoF, hB, COCOMO_BASE_EXPONENT]
  have hround : round2R 0 = 0 := by
    rw [round2R, if_pos le_rfl]
    norm_num
  have hpow : jsPow (JsVal.num (⟨0, []⟩ : CocomoInputs).ksloc)
      (JsVal.num (cocomoB ⟨0, []⟩)) = JsVal.num 0 := by
    show jsPow (JsVal.num 0) (JsVal.num (cocomoB ⟨0, []⟩)) = JsVal.num 0
    rw [hB]
    exact jsPow_zero_base _ (by norm_num)
  have heff : (calculateCocomoII ⟨0, []⟩).effort = JsVal.num 0 := by
    rw [calculateCocomoII]
    simp only [hpow, jsMul_num_num, mul_zero, zero_mul, roundJs_num, hround]
  have hdev : (calculateCocomoII ⟨0, []⟩).devTime = JsVal.num 0 := by
    rw [calculateCocomoII]
    simp only [hpow, jsMul_num_num, mul_zero, zero_mul, hF,
      jsPow_zero_base 0.28 (by norm_num), roundJs_num, hround]
  refine ⟨⟨le_rfl, rfl⟩, heff, hdev, ?_⟩
  rw [heff, hdev]
  simp [JsVal.IsNaN, JsVal.IsInfinite]

/-- Claim C2 as amended: with `ksloc < 0` and an exponent `B` that is
not an integer, `calculateCocomoII` produces a `NaN` effort (JavaScript
`Math.pow` of a negative base and non-integer exponent is `NaN`), and
the caller must treat the result as invalid; but `ksloc ≤ 0` or an
empty `scaleFactors` map alone need not produce `NaN` or `Infinity`:
`ksloc = 0` yields `effort = devTime = 0`, and an empty map with
positive KSLOC yields ordinary finite outputs. -/
theorem C2_amended_nan_outputs :
    (∀ inputs : CocomoInputs, inputs.ksloc < 0 →
        (¬∃ n : ℤ, (n : ℝ) = cocomoB inputs) →
        (calculateCocomoII inputs).effort = JsVal.nan)
    ∧ (∀ k : ℝ, 0 < k →
        (calculateCocomoII ⟨k, []⟩).effort.IsNum
        ∧ (calculateCocomoII ⟨k, []⟩).devTime.IsNum) := by
  constructor
  · intro inputs hneg hnint
    rw [calculateCocomoII]
    simp only [jsPow_neg_base_nonint _ _ hneg hnint, jsMul_nan_right,
      jsMul_nan_left]
    rfl
  · intro k hk
    obtain ⟨h1, h2⟩ := calculateCocomoII_pos ⟨k, []⟩ hk
    rw [h1, h2]
    exact ⟨trivial, trivial⟩

/-- Witness for the amended C2 at concrete inputs: `ksloc = -1` with an
empty map gives `B = 0.91`, not an integer. -/
theorem C2_amended_nan_outputs_witness :
    (calculateCocomoII ⟨-1, []⟩).effort = JsVal.nan
    ∧ ((calculateCocomoII ⟨10, []⟩).effort.IsNum
        ∧ (calculateCocomoII ⟨10, []⟩).devTime.IsNum) := by
  have hB : cocomoB ⟨-1, []⟩ = 0.91 := by
    simp [cocomoB, sumOfSFExponents, COCOMO_BASE_EXPONENT]
  refine ⟨C2_amended_nan_outputs.1 ⟨-1, []⟩ (by norm_num) ?_,
    C2_amended_nan_outputs.2 10 (by norm_num)⟩
  rw [hB]
  rintro ⟨n, hn⟩
  have h100 : ((100 * n : ℤ) : ℝ) = ((91 : ℤ) : ℝ) := by
    push_cast
    linarith
  have := Int.cast_injective h100
  omega

/-- Counterexample to claim C5: with counts `{ei:250000, eo:0, eq:0,
ilf:0, eif:0}` (finite, non-negative) and the single rating
`dataCommunications = 0.5` (all effective ratings in `[0, 5]`), the
returned `vaf` rounds `0.655` up to `0.66` while `afp` is computed from
the unrounded `0.655`, so `afp = 655000` differs from
`ufp * vaf = 660000` by `5000`, far beyond the claimed `0.01`
tolerance.  The claim holds only for integer counts and ratings. -/
theorem C5_counterexample :
    (0 ≤ (⟨250000, 0, 0, 0, 0⟩ : FPInputs).ei
      ∧ 0 ≤ (⟨250000, 0, 0, 0, 0⟩ : FPInputs).eo
      ∧ 0 ≤ (⟨250000, 0, 0, 0, 0⟩ : FPInputs).eq
      ∧ 0 ≤ (⟨250000, 0, 0, 0, 0⟩ : FPInputs).ilf
      ∧ 0 ≤ (⟨250000, 0, 0, 0, 0⟩ : FPInputs).eif)
    ∧ RatingsInRange [("dataCommunications", (1 : ℚ)/2)]
    ∧ ¬(|(calculateFunctionPoints ⟨250000, 0, 0, 0, 0⟩ [("dataCommunications", (1 : ℚ)/2)]).afp
          - (calculateFunctionPoints ⟨250000, 0, 0, 0, 0⟩ [("dataCommunications", (1 : ℚ)/2)]).ufp
            * (calculateFunctionPoints ⟨250000, 0, 0, 0, 0⟩ [("dataCommunications", (1 : ℚ)/2)]).vaf|
        ≤ 0.01) := by
  have htdi : tdiOf [("dataCommunications", (1 : ℚ)/2)] = 1/2 := by
    simp [tdiOf, GSC_FACTOR_IDS, lookupOrZero, assocLookup]
  refine ⟨⟨by norm_num, by norm_num, by norm_num, by norm_num, by norm_num⟩, ?_, ?_⟩
  · intro id _
    by_cases h : ("dataCommunications" : String) = id
    · subst h
      constructor <;> norm_num [lookupOrZero, assocLookup]
    · constructor <;> simp [lookupOrZero, assocLookup, h]
  · have h1 : (calculateFunctionPoints ⟨250000, 0, 0, 0, 0⟩
        [("dataCommunications", (1 : ℚ)/2)]).afp
        = round2Q ((250000 * 4 + 0 * 5 + 0 * 4 + 0 * 10 + 0 * 7)
            * (0.65 + 0.01 * tdiOf [("dataCommunications", (1 : ℚ)/2)])) := rfl
    have h2 : (calculateFunctionPoints ⟨250000, 0, 0, 0, 0⟩
        [("dataCommunications", (1 : ℚ)/2)]).ufp
        = round2Q (250000 * 4 + 0 * 5 + 0 * 4 + 0 * 10 + 0 * 7) := rfl
    have h3 : (calculateFunctionPoints ⟨250000, 0, 0, 0, 0⟩
        [("dataCommunications", (1 : ℚ)/2)]).vaf
        = round2Q (0.65 + 0.01 * tdiOf [("dataCommunications", (1 : ℚ)/2)]) := rfl
    have e1 : (calculateFunctionPoints ⟨250000, 0, 0, 0, 0⟩
        [("dataCommunications", (1 : ℚ)/2)]).afp = 655000 := by
      rw [h1, htdi, round2Q]
      norm_num
    have e2 : (calculateFunctionPoints ⟨250000, 0, 0, 0, 0⟩
        [("dataCommunications", (1 : ℚ)/2)]).ufp = 1000000 := by
      rw [h2, round2Q]
      norm_num
    have e3 : (calculateFunctionPoints ⟨250000, 0, 0, 0, 0⟩
        [("dataCommunications", (1 : ℚ)/2)]).vaf = 0.66 := by
      rw [h3, htdi, round2Q]
      norm_num
    rw [e1, e2, e3,
      show (655000 : ℚ) - 1000000 * 0.66 = -5000 by norm_num, abs_neg,
      abs_of_nonneg (by norm_num : (0 : ℚ) ≤ 5000)]
    norm_num

/-- Claim C5 as amended (matching the spec's own testable-properties
wording): for non-negative integer counts and integer ratings in
`[0, 5]` over the 14 fixed ids, the returned `vaf` lies in
`[0.65, 1.35]` and the returned `afp` equals the returned `ufp * vaf`
within the rounding tolerance `0.01`. -/
theorem C5_amended_integer_inputs :
    ∀ (fp : FPInputs) (gsc : GSCInputs), fp.NatCounts → IntRatings gsc →
      (0.65 ≤ (calculateFunctionPoints fp gsc).vaf
          ∧ (calculateFunctionPoints fp gsc).vaf ≤ 1.35)
      ∧ |(calculateFunctionPoints fp gsc).afp
            - (calculateFunctionPoints fp gsc).ufp
              * (calculateFunctionPoints fp gsc).vaf|
          ≤ 0.01 := by
  intro fp gsc hnat hint
  obtain ⟨m, hm, hsum⟩ := ratings_sum_natural (lookupOrZero gsc) GSC_FACTOR_IDS hint
  have hlen : GSC_FACTOR_IDS.length = 14 := rfl
  have hm70 : m ≤ 70 := by
    rw [hlen] at hm
    omega
  have htdi : tdiOf gsc = (m : ℚ) := by
    rw [tdiOf_eq_sum, hsum]
  have hvaf_val : (0.65 : ℚ) + 0.01 * tdiOf gsc = (65 + (m : ℚ)) / 100 := by
    rw [htdi]
    ring
  have hvaf_exact : round2Q (0.65 + 0.01 * tdiOf gsc) = 0.65 + 0.01 * tdiOf gsc := by
    apply round2Q_eq_self _ (65 + (m : ℤ))
    rw [hvaf_val]
    push_cast
    field_simp
  obtain ⟨⟨a, ha⟩, ⟨b, hb⟩, ⟨c, hc⟩, ⟨d, hd⟩, ⟨e, he⟩⟩ := hnat
  have hufp_val : fp.ei * SIMPLE_WEIGHTS.ei + fp.eo * SIMPLE_WEIGHTS.eo
      + fp.eq * SIMPLE_WEIGHTS.eq + fp.ilf * SIMPLE_WEIGHTS.ilf
      + fp.eif * SIMPLE_WEIGHTS.eif
      = ((a * 4 + b * 5 + c * 4 + d * 10 + e * 7 : ℕ) : ℚ) := by
    rw [ha, hb, hc, hd, he]
    show (a : ℚ) * 4 + (b : ℚ) * 5 + (c : ℚ) * 4 + (d : ℚ) * 10 + (e : ℚ) * 7 = _
    push_cast
    ring
  have hufp_exact : round2Q (fp.ei * SIMPLE_WEIGHTS.ei + fp.eo * SIMPLE_WEIGHTS.eo
      + fp.eq * SIMPLE_WEIGHTS.eq + fp.ilf * SIMPLE_WEIGHTS.ilf
      + fp.eif * SIMPLE_WEIGHTS.eif)
      = fp.ei * SIMPLE_WEIGHTS.ei + fp.eo * SIMPLE_WEIGHTS.eo
        + fp.eq * SIMPLE_WEIGHTS.eq + fp.ilf * SIMPLE_WEIGHTS.ilf
        + fp.eif * SIMPLE_WEIGHTS.eif := by
    apply round2Q_eq_self _ ((100 * (a * 4 + b * 5 + c * 4 + d * 10 + e * 7) : ℕ) : ℤ)
    rw [hufp_val]
    push_cast
    ring
  have hvaf_field : (calculateFunctionPoints fp gsc).vaf
      = round2Q (0.65 + 0.01 * tdiOf gsc) := rfl
  have hufp_field : (calculateFunctionPoints fp gsc).ufp
      = round2Q (fp.ei * SIMPLE_WEIGHTS.ei + fp.eo * SIMPLE_WEIGHTS.eo
        + fp.eq * SIMPLE_WEIGHTS.eq + fp.ilf * SIMPLE_WEIGHTS.ilf
        + fp.eif * SIMPLE_WEIGHTS.eif) := rfl
  have hafp_field : (calculateFunctionPoints fp gsc).afp
      = round2Q ((fp.ei * SIMPLE_WEIGHTS.ei + fp.eo * SIMPLE_WEIGHTS.eo
        + fp.eq * SIMPLE_WEIGHTS.eq + fp.ilf * SIMPLE_WEIGHTS.ilf
        + fp.eif * SIMPLE_WEIGHTS.eif) * (0.65 + 0.01 * tdiOf gsc)) := rfl
  constructor
  · rw [hvaf_field, hvaf_exact, hvaf_val]
    have hmq : (0 : ℚ) ≤ (m : ℚ) := Nat.cast_nonneg m
    have hmq70 : (m : ℚ) ≤ 70 := by exact_mod_cast hm70
    constructor
    · rw [le_div_iff₀ (by norm_num : (0 : ℚ) < 100)]
      linarith
    · rw [div_le_iff₀ (by norm_num : (0 : ℚ) < 100)]
      linarith
  · rw [hafp_field, hufp_field, hvaf_field, hufp_exact, hvaf_exact]
    calc |round2Q ((fp.ei * SIMPLE_WEIGHTS.ei + fp.eo * SIMPLE_WEIGHTS.eo
          + fp.eq * SIMPLE_WEIGHTS.eq + fp.ilf * SIMPLE_WEIGHTS.ilf
          + fp.eif * SIMPLE_WEIGHTS.eif) * (0.65 + 0.01 * tdiOf gsc))
          - (fp.ei * SIMPLE_WEIGHTS.ei + fp.eo * SIMPLE_WEIGHTS.eo
            + fp.eq * SIMPLE_WEIGHTS.eq + fp.ilf * SIMPLE_WEIGHTS.ilf
            + fp.eif * SIMPLE_WEIGHTS.eif) * (0.65 + 0.01 * tdiOf gsc)|
        ≤ 1 / 200 := round2Q_abs_sub_le _
      _ ≤ 0.01 := by norm_num

/-- Witness for the amended C5 at concrete integer inputs. -/
theorem C5_amended_integer_inputs_witness :
    (0.65 ≤ (calculateFunctionPoints ⟨10, 10, 10, 10, 10⟩ []).vaf
        ∧ (calculateFunctionPoints ⟨10, 10, 10, 10, 10⟩ []).vaf ≤ 1.35)
    ∧ |(calculateFunctionPoints ⟨10, 10, 10, 10, 10⟩ []).afp
          - (calculateFunctionPoints ⟨10, 10, 10, 10, 10⟩ []).ufp
            * (calculateFunctionPoints ⟨10, 10, 10, 10, 10⟩ []).vaf|
        ≤ 0.01 :=
  C5_amended_integer_inputs ⟨10, 10, 10, 10, 10⟩ []
    ⟨⟨10, by norm_num⟩, ⟨10, by norm_num⟩, ⟨10, by norm_num⟩,
      ⟨10, by norm_num⟩, ⟨10, by norm_num⟩⟩
    (fun id _ => ⟨0, by norm_num [lookupOrZero, assocLookup]⟩)

/-- Claim C10: a `NaN` rating among the 14 known GSC ids is turned into
`0` by the `|| 0` guard, so `tdi`, `vaf` and `afp` stay NaN-free for
ordinary counts regardless of `NaN` ratings; by contrast a `NaN` count
propagates into `ufp` and `afp`. -/
theorem C10_nan_rating_guard :
    (∀ (fp : FPInputsJs) (gsc : GSCInputsJs), fp.AllNum → GSCNumOrNaN gsc →
        (tdiOfJs gsc).IsNum
        ∧ (calculateFunctionPointsJs fp gsc).vaf.IsNum
        ∧ (calculateFunctionPointsJs fp gsc).afp.IsNum)
    ∧ (∀ (fp : FPInputsJs) (gsc : GSCInputsJs), fp.ei.IsNaN →
        (calculateFunctionPointsJs fp gsc).ufp.IsNaN
        ∧ (calculateFunctionPointsJs fp gsc).afp.IsNaN) := by
  constructor
  · intro fp gsc hfp hgsc
    have htdi := tdiOfJs_isNum gsc hgsc
    obtain ⟨t, ht⟩ := (JsVal.isNum_iff _).mp htdi
    obtain ⟨a, ha⟩ := (JsVal.isNum_iff _).mp hfp.1
    obtain ⟨b, hb⟩ := (JsVal.isNum_iff _).mp hfp.2.1
    obtain ⟨c, hc⟩ := (JsVal.isNum_iff _).mp hfp.2.2.1
    obtain ⟨d, hd⟩ := (JsVal.isNum_iff _).mp hfp.2.2.2.1
    obtain ⟨e, he⟩ := (JsVal.isNum_iff _).mp hfp.2.2.2.2
    refine ⟨htdi, ?_, ?_⟩ <;>
      · simp only [calculateFunctionPointsJs, ha, hb, hc, hd, he, ht,
          jsMul_num_num, jsAdd_num_num, roundJs_num]
        trivial
  · intro fp gsc hnan
    have he : fp.ei = JsVal.nan := (JsVal.isNaN_iff _).mp hnan
    constructor <;>
      · simp only [calculateFunctionPointsJs, he, jsMul_nan_left, jsAdd_nan_left,
          roundJs_nan]
        trivial

/-- Witness for C10 at concrete inputs: the rating object maps
`performance` to `NaN`; separately, `ei = NaN` poisons `ufp` and `afp`. -/
theorem C10_nan_rating_guard_witness :
    ((tdiOfJs [("performance", JsVal.nan)]).IsNum
      ∧ (calculateFunctionPointsJs
          ⟨JsVal.num 1, JsVal.num 1, JsVal.num 1, JsVal.num 1, JsVal.num 1⟩
          [("performance", JsVal.nan)]).vaf.IsNum
      ∧ (calculateFunctionPointsJs
          ⟨JsVal.num 1, JsVal.num 1, JsVal.num 1, JsVal.num 1, JsVal.num 1⟩
          [("performance", JsVal.nan)]).afp.IsNum)
    ∧ ((calculateFunctionPointsJs
          ⟨JsVal.nan, JsVal.num 1, JsVal.num 1, JsVal.num 1, JsVal.num 1⟩ []).ufp.IsNaN
      ∧ (calculateFunctionPointsJs
          ⟨JsVal.nan, JsVal.num 1, JsVal.num 1, JsVal.num 1, JsVal.num 1⟩ []).afp.IsNaN) :=
  ⟨C10_nan_rating_guard.1 _ _ ⟨trivial, trivial, trivial, trivial, trivial⟩
    (by
      intro p hp
      simp only [List.mem_singleton] at hp
      rw [hp]
      exact Or.inr trivial),
   C10_nan_rating_guard.2 _ _ trivial⟩

end FPCalc
